import Mathlib

/-!
Verification of the WhisperApp (JARVIS voice agent) core against its
natural-language specification.  Shallow embedding of the TypeScript
sources:

* `src/main/engine/AudioCapture.ts` (CostTracker section)
* `src/main/engine/AdaptiveRouter.ts`
* `src/main/services/FallbackChain.ts` (FallbackChain and JarvisEngine)
* `src/main/services/RealtimeClient.ts`
* the FunctionExecutor (`executor.ts`)

Dollar amounts are rationals, timestamps are integers (milliseconds),
clocks are explicit parameters.
-/

namespace WhisperApp

/-! ### CostTracker  (AudioCapture.ts, `class CostTracker`) -/

inductive AgentMode
  | premium
  | efficient
deriving DecidableEq, Repr

/-- One entry of the append-only cost ledger (`interface CostEntry`). -/
structure CostEntry where
  timestamp : Int
  mode : AgentMode
  cost : ℚ
  tokens : Option ℚ
  audioSeconds : Option ℚ
deriving DecidableEq, Repr

/-- `class CostTracker`: the entry list plus the two budgets. -/
structure CostTracker where
  entries : List CostEntry
  dailyBudget : ℚ
  monthlyBudget : ℚ
deriving DecidableEq, Repr

/-- The `PRICING` constant table of `CostTracker` (dollars per unit). -/
def PRICING_realtimeAudioInput : ℚ := 100
def PRICING_realtimeAudioOutput : ℚ := 200
def PRICING_whisper : ℚ := 6 / 1000
def PRICING_gpt4oMiniInput : ℚ := 150 / 1000
def PRICING_gpt4oMiniOutput : ℚ := 600 / 1000
def PRICING_elevenlabs : ℚ := 30 / 100

/-- `CostTracker.recordRealtimeInteraction(audioSeconds, estimatedTokens)`.
Returns the computed cost and the tracker with the new entry pushed. -/
def recordRealtimeInteraction (t : CostTracker) (now : Int)
    (audioSeconds : ℚ) (estimatedTokens : ℚ) : ℚ × CostTracker :=
  let inputTokens := estimatedTokens / 2
  let outputTokens := estimatedTokens / 2
  let cost := inputTokens / 1000000 * PRICING_realtimeAudioInput +
      outputTokens / 1000000 * PRICING_realtimeAudioOutput
  (cost,
   { t with entries := t.entries ++
      [{ timestamp := now, mode := .premium, cost := cost,
         tokens := some estimatedTokens, audioSeconds := some audioSeconds }] })

/-- `CostTracker.recordWhisperTranscription(audioMinutes)`. -/
def recordWhisperTranscription (t : CostTracker) (now : Int)
    (audioMinutes : ℚ) : ℚ × CostTracker :=
  let cost := audioMinutes * PRICING_whisper
  (cost,
   { t with entries := t.entries ++
      [{ timestamp := now, mode := .efficient, cost := cost,
         tokens := none, audioSeconds := some (audioMinutes * 60) }] })

/-- `CostTracker.recordGPTCompletion(inputTokens, outputTokens)`. -/
def recordGPTCompletion (t : CostTracker) (now : Int)
    (inputTokens outputTokens : ℚ) : ℚ × CostTracker :=
  let cost := inputTokens / 1000000 * PRICING_gpt4oMiniInput +
      outputTokens / 1000000 * PRICING_gpt4oMiniOutput
  (cost,
   { t with entries := t.entries ++
      [{ timestamp := now, mode := .efficient, cost := cost,
         tokens := some (inputTokens + outputTokens), audioSeconds := none }] })

/-- `CostTracker.recordElevenLabs(characters)`. -/
def recordElevenLabs (t : CostTracker) (now : Int)
    (characters : ℚ) : ℚ × CostTracker :=
  let cost := characters / 1000 * PRICING_elevenlabs
  (cost,
   { t with entries := t.entries ++
      [{ timestamp := now, mode := .efficient, cost := cost,
         tokens := none, audioSeconds := none }] })

/-- `CostTracker.recordFallbackInteraction`: records the three per-stage
entries (whisper, GPT, ElevenLabs) and returns the total cost. -/
def recordFallbackInteraction (t : CostTracker) (now : Int)
    (audioMinutes inputTokens outputTokens elevenlabsCharacters : ℚ) :
    ℚ × CostTracker :=
  let w := recordWhisperTranscription t now audioMinutes
  let g := recordGPTCompletion w.2 now inputTokens outputTokens
  let e := recordElevenLabs g.2 now elevenlabsCharacters
  (w.1 + g.1 + e.1, e.2)

/-- `CostTracker.getMetrics().todayCost`: sum of the entries whose
timestamp is within the last 24 hours. -/
def todayCost (t : CostTracker) (now : Int) : ℚ :=
  ((t.entries.filter (fun e => e.timestamp ≥ now - 24 * 60 * 60 * 1000)).map
    (fun e => e.cost)).sum

/-- `CostTracker.getDailyBudgetUsagePercent()`. -/
def getDailyBudgetUsagePercent (t : CostTracker) (now : Int) : ℚ :=
  todayCost t now / t.dailyBudget * 100

/-! ### AdaptiveRouter  (AdaptiveRouter.ts) -/

/-- `interface RoutingConfig`. -/
structure RoutingConfig where
  defaultMode : AgentMode
  peakHoursStart : Int
  peakHoursEnd : Int
  budgetThreshold : ℚ
deriving DecidableEq, Repr

/-- `interface RoutingDecision`.  The `reason` field is a TypeScript
string-literal union (`'cost_limit' | 'high_latency_ok' | 'time_of_day' |
'interaction_type' | 'user_preference'`), modelled as a string. -/
structure RoutingDecision where
  mode : AgentMode
  reason : String
  estimatedCost : ℚ
  estimatedLatency : ℚ
deriving DecidableEq, Repr

/-- `AdaptiveRouter.estimateCost(mode)`. -/
def estimateCost : AgentMode → ℚ
  | .premium => 12 / 100
  | .efficient => 4 / 1000

/-- `AdaptiveRouter.estimateLatency(mode)`. -/
def estimateLatency : AgentMode → ℚ
  | .premium => 500
  | .efficient => 2000

/-- `AdaptiveRouter.route(interactionType?)`.  The router reads the daily
budget usage from its `CostTracker` and the current hour from the system
clock; both are explicit parameters here (`now` and `hour`). -/
def route (forcedMode : Option AgentMode) (tracker : CostTracker)
    (now : Int) (hour : Int) (interactionType : Option String)
    (config : RoutingConfig) : RoutingDecision :=
  match forcedMode with
  | some m =>
      { mode := m, reason := "user_preference",
        estimatedCost := estimateCost m, estimatedLatency := estimateLatency m }
  | none =>
      let budgetUsage := getDailyBudgetUsagePercent tracker now
      if budgetUsage ≥ config.budgetThreshold then
        { mode := .efficient, reason := "cost_limit",
          estimatedCost := estimateCost .efficient,
          estimatedLatency := estimateLatency .efficient }
      else
        let isPeakHours := hour ≥ config.peakHoursStart ∧ hour < config.peakHoursEnd
        if ¬ isPeakHours then
          { mode := .efficient, reason := "time_of_day",
            estimatedCost := estimateCost .efficient,
            estimatedLatency := estimateLatency .efficient }
        else if interactionType = some "simple" then
          { mode := .efficient, reason := "interaction_type",
            estimatedCost := estimateCost .efficient,
            estimatedLatency := estimateLatency .efficient }
        else
          { mode := config.defaultMode, reason := "time_of_day",
            estimatedCost := estimateCost config.defaultMode,
            estimatedLatency := estimateLatency config.defaultMode }

/-- The configuration defaults of `ConfigManager.loadConfig().routing`
plus the router default threshold (50%). -/
def defaultRoutingConfig : RoutingConfig :=
  { defaultMode := .premium, peakHoursStart := 9, peakHoursEnd := 17,
    budgetThreshold := 50 }

/-! ### FallbackChain  (FallbackChain.ts) -/

/-- One message of `FallbackChain.conversationHistory`
(`{ role: string; content: string }`). -/
structure ChatMsg where
  role : String
  content : String
deriving DecidableEq, Repr

/-- The history the `FallbackChain` constructor builds: the system prompt,
when configured, is pushed first. -/
def initialHistory : Option String → List ChatMsg
  | some p => [{ role := "system", content := p }]
  | none => []

/-- The history-trimming step at the end of `FallbackChain.generateResponse`:
when the history exceeds 10 messages, keep the leading system message (when
there is one) plus the last 9 messages, otherwise the last 10. -/
def trimHistory (h : List ChatMsg) : List ChatMsg :=
  if h.length > 10 then
    match h with
    | [] => []
    | m0 :: _ =>
        if m0.role = "system" then m0 :: h.drop (h.length - 9)
        else h.drop (h.length - 10)
  else h

/-- The effect of one `FallbackChain.generateResponse(userMessage)` call on
the history: push the user message, push the assistant reply, then trim. -/
def generateResponseHistory (h : List ChatMsg)
    (userMessage assistantReply : String) : List ChatMsg :=
  trimHistory (h ++ [{ role := "user", content := userMessage },
                     { role := "assistant", content := assistantReply }])

/-- `FallbackChain.calculateCost(audioBuffer, response)`: one combined
dollar figure for the three stages (whisper by audio minutes at 16 kHz
16-bit, GPT-4o-mini by tokens, ElevenLabs by characters). -/
def calculateCost (audioBytes : ℕ) (inputTokens outputTokens : ℕ)
    (responseChars : ℕ) : ℚ :=
  let audioMinutes : ℚ := ((audioBytes : ℚ) / (16000 * 2)) / 60
  let whisperCost := audioMinutes * (6 / 1000)
  let gptCost := ((inputTokens : ℚ) / 1000000) * (150 / 1000) +
      ((outputTokens : ℚ) / 1000000) * (600 / 1000)
  let elevenlabsCost := ((responseChars : ℚ) / 1000) * (30 / 100)
  whisperCost + gptCost + elevenlabsCost

/-- What `FallbackChain.processAudio` returns to its caller:
`{ audioBuffer, text, cost }` (the cost from `calculateCost`). -/
structure ChainResult where
  audioBytes : ℕ
  text : String
  cost : ℚ
deriving DecidableEq, Repr

/-! ### JarvisEngine  (FallbackChain.ts, `class JarvisEngine`) -/

/-- The slice of `JarvisEngine` state the cost claims depend on. -/
structure EngineState where
  status : String
  mode : AgentMode
  audioBuffer : List ℕ
  tracker : CostTracker
deriving DecidableEq, Repr

/-- `JarvisEngine.processBufferedAudio()`.  In efficient mode it sets the
status to thinking, awaits `fallbackChain.processAudio` (whose returned
cost it discards), runs `finishInteraction` (status back to idle) and
clears the audio buffer.  In premium mode it only commits the audio.
No branch touches the cost tracker. -/
def processBufferedAudio (st : EngineState) (chainResult : ChainResult) :
    EngineState :=
  if st.audioBuffer = [] then { st with status := "idle" }
  else if st.mode = .premium then { st with audioBuffer := [] }
  else
    let _ := chainResult
    { st with status := "idle", audioBuffer := [] }

/-- The actual usage of one premium interaction, as carried by the
`response.done` payload the handler receives (and ignores). -/
structure RealtimeResponsePayload where
  actualAudioSeconds : ℚ
  actualTokens : ℚ
deriving DecidableEq, Repr

/-- The `response.done` handler installed by
`JarvisEngine.setupRealtimeHandlers`: clear the audio buffer, record the
cost with the hard-coded estimate `recordRealtimeInteraction(5, 1000)`,
and finish the interaction.  The response payload is ignored. -/
def onResponseDone (st : EngineState) (now : Int)
    (resp : RealtimeResponsePayload) : EngineState :=
  let _ := resp
  { st with audioBuffer := [],
            tracker := (recordRealtimeInteraction st.tracker now 5 1000).2,
            status := "idle" }

/-! ### RealtimeClient reconnection  (RealtimeClient.ts) -/

/-- `interface ReconnectionConfig` with `DEFAULT_RECONNECTION_CONFIG`. -/
structure ReconnectionConfig where
  enabled : Bool := true
  maxAttempts : ℕ := 5
  initialDelayMs : ℚ := 1000
  maxDelayMs : ℚ := 30000
  backoffMultiplier : ℚ := 2
deriving DecidableEq, Repr

/-- The semantic events the client emits during disconnect/reconnect. -/
inductive RCEvent
  | disconnected
  | reconnecting (attempt : ℕ) (delayMs : ℚ)
  | sessionConfigured
  | reconnected (attempt : ℕ)
  | reconnectionFailed (attempts : ℕ)
deriving DecidableEq, Repr

/-- `RealtimeClient.scheduleReconnection` together with the timer
continuation that awaits `establishConnection`.  `attempts` is the current
`reconnectAttempts` counter; `outcome k` tells whether the k-th attempt's
`establishConnection` succeeds.  On success the WebSocket `open` handler
runs first: it resets `reconnectAttempts` to 0 and sends the
session-configuration (`initializeSession`); only then does the awaiting
continuation emit `reconnected` with the already-reset counter.  On
failure the catch clause clears `isReconnecting` and re-enters
`scheduleReconnection`. -/
def reconnectLoopAux (cfg : ReconnectionConfig) (outcome : ℕ → Bool) :
    ℕ → ℕ → List RCEvent
  | 0, attempts => [.reconnectionFailed attempts]
  | remaining + 1, attempts =>
    let newAttempts := attempts + 1
    let delay := min (cfg.initialDelayMs *
        cfg.backoffMultiplier ^ (newAttempts - 1)) cfg.maxDelayMs
    .reconnecting newAttempts delay ::
      (if outcome newAttempts then
        let attemptsAfterOpen := 0
        [.sessionConfigured, .reconnected attemptsAfterOpen]
      else reconnectLoopAux cfg outcome remaining newAttempts)

/-- Entry point of the loop: the guard `reconnectAttempts ≥ maxAttempts`
of `scheduleReconnection` corresponds to the fuel `maxAttempts - attempts`
reaching zero. -/
def reconnectLoop (cfg : ReconnectionConfig) (outcome : ℕ → Bool)
    (attempts : ℕ) : List RCEvent :=
  reconnectLoopAux cfg outcome (cfg.maxAttempts - attempts) attempts

/-- The `close` handler of `establishConnection`: emit `disconnected`,
then reconnect only when reconnection is enabled, the disconnect was not
intentional, and the client had been connected.  A fresh disconnect after
a successful connection starts with `reconnectAttempts = 0`. -/
def onClose (cfg : ReconnectionConfig) (intentional wasConnected : Bool)
    (outcome : ℕ → Bool) : List RCEvent :=
  .disconnected ::
    (if cfg.enabled && !intentional && wasConnected then
      reconnectLoop cfg outcome 0
    else [])

/-! ### FunctionExecutor  (executor.ts) -/

/-- The three environment directories `SECURITY_CONFIG.allowedBasePaths`
is built from (`os.homedir()`, `os.tmpdir()`, `process.cwd()`). -/
structure HostEnv where
  homedir : String
  tmpdir : String
  cwd : String
deriving DecidableEq, Repr

/-- `SECURITY_CONFIG.allowedBasePaths`. -/
def allowedBasePaths (env : HostEnv) : List String :=
  [env.homedir, env.tmpdir, env.cwd]

/-- `SECURITY_CONFIG.maxFileSize` (10 MiB). -/
def maxFileSize : ℕ := 10 * 1024 * 1024

/-- JavaScript `s.startsWith(pre)` (UTF-16 prefix; character-wise on the
decoded text). -/
def strStartsWith (s pre : String) : Bool := pre.data.isPrefixOf s.data

/-- Character-list infix containment. -/
def listIsInfix (l₁ : List Char) : List Char → Bool
  | [] => l₁.isEmpty
  | c :: t => l₁.isPrefixOf (c :: t) || listIsInfix l₁ t

/-- JavaScript `s.includes(sub)` (substring containment). -/
def includesSubstr (s sub : String) : Bool := listIsInfix sub.data s.data

/-- Split a character list at `/` separators. -/
def splitOnSlash : List Char → List (List Char)
  | [] => [[]]
  | c :: rest =>
    let r := splitOnSlash rest
    if c = '/' then [] :: r
    else
      match r with
      | [] => [[c]]
      | g :: gs => (c :: g) :: gs

/-- Segment processing of Node's `path.normalize`: drop empty and `.`
segments, let `..` pop the previous real segment, keep leading `..`s. -/
def normalizeSegments : List String → List String → List String
  | acc, [] => acc.reverse
  | acc, seg :: rest =>
    if seg = "" ∨ seg = "." then normalizeSegments acc rest
    else if seg = ".." then
      match acc with
      | [] => normalizeSegments [".."] rest
      | a :: as =>
          if a = ".." then normalizeSegments (".." :: ".." :: as) rest
          else normalizeSegments as rest
    else normalizeSegments (seg :: acc) rest

/-- Node `path.resolve(p)` against the executor's working directory
(POSIX): join the absolute working directory with `p` when `p` is
relative, then collapse empty, `.` and `..` segments; `..` above the
root is discarded.  The result is always an absolute, normalized
path — e.g. `/etc/../tmp/x.txt` resolves to `/tmp/x.txt`. -/
def resolvePath (cwd p : String) : String :=
  let joined := if strStartsWith p "/" then p else cwd ++ "/" ++ p
  let segs := normalizeSegments [] ((splitOnSlash joined.data).map String.mk)
  let segs := segs.dropWhile (fun s => s == "..")
  "/" ++ String.intercalate "/" segs

/-- Model of Node's `path.normalize`. -/
def normalizePath (p : String) : String :=
  (if strStartsWith p "/" then "/" else "") ++
    String.intercalate "/"
      (normalizeSegments [] ((splitOnSlash p.data).map String.mk))

/-- The typed errors of the executor (the TypeScript code throws `Error`s
with distinguishing messages; one constructor per throw site). -/
inductive ExecErr
  | blocked (name : String)
  | notApproved (name : String)
  | unknownFunction (name : String)
  | pathDenied
  | pathTraversal
  | missingArgument
  | fileNotFound (path : String)
  | fileTooLarge
  | contentTooLarge
  | isDirectory (path : String)
deriving DecidableEq, Repr

/-- The successful results of the executor relevant to this development.
The non-file functions shell out to the host OS; their payloads are
opaque here. -/
inductive ExecResult
  | fileRead (path : String) (size : ℕ) (content : List ℕ)
  | fileCreated (path : String)
  | fileDeleted (path : String)
  | fileMoved (source destination : String)
  | fileOpened (path : String)
  | dirListing (path : String)
  | searchResults (query : String) (path : String)
  | hostAction (name : String)
deriving DecidableEq, Repr

/-- The argument record of a tool call (`Record<string, any>`); only the
fields the file operations read are modelled. -/
structure FnArgs where
  path : Option String := none
  source : Option String := none
  destination : Option String := none
  content : Option (List ℕ) := none
  query : Option String := none
deriving DecidableEq, Repr

/-- `FunctionExecutor.validatePath(inputPath)`: resolve, require a prefix
match against an allowed base, then run the separate `..`-traversal
check (in that order — the prefix check throws first). -/
def validatePath (env : HostEnv) (inputPath : String) :
    Except ExecErr String :=
  let resolvedPath := resolvePath env.cwd inputPath
  let isAllowed := (allowedBasePaths env).any
    (fun basePath => strStartsWith resolvedPath basePath)
  if !isAllowed then .error .pathDenied
  else if includesSubstr inputPath ".." then
    if includesSubstr (normalizePath inputPath) ".." then
      .error .pathTraversal
    else .ok resolvedPath
  else .ok resolvedPath

/-- A file of the host file system: directory flag and decoded content as
Unicode code points of the basic multilingual plane (each one UTF-16
unit in a JavaScript string and one to three UTF-8 bytes on disk). -/
structure FileData where
  isDir : Bool
  content : List ℕ
deriving DecidableEq, Repr

/-- UTF-8 width in bytes of a basic-multilingual-plane code point. -/
def utf8Width (c : ℕ) : ℕ :=
  if c < 128 then 1 else if c < 2048 then 2 else 3

/-- The on-disk size in bytes (`fs.stat(...).size` for a regular file). -/
def byteSize (content : List ℕ) : ℕ := (content.map utf8Width).sum

/-- The host file system, path → file. -/
abbrev FSModel := List (String × FileData)

/-- `fs.stat` / lookup of a path. -/
def fsLookup (fs : FSModel) (p : String) : Option FileData := List.lookup p fs

/-- `fs.unlink`. -/
def fsErase (fs : FSModel) (p : String) : FSModel :=
  fs.filter (fun e => e.1 ≠ p)

/-- `fs.writeFile`. -/
def fsWrite (fs : FSModel) (p : String) (d : FileData) : FSModel :=
  (p, d) :: fsErase fs p

/-- The code point of the full stop, for the `'...'` ellipsis marker. -/
def dotCp : ℕ := 46

/-- `FunctionExecutor.readFile({path})`: validate the path, stat (rejecting
files above `maxFileSize` bytes), read, truncate the returned payload to
the first 1000 characters plus `'...'`, and report `size` as
`content.length` — the character count of the decoded string. -/
def readFileOp (env : HostEnv) (fs : FSModel) (p : String) :
    Except ExecErr ExecResult :=
  match validatePath env p with
  | .error e => .error e
  | .ok filePath =>
    match fsLookup fs filePath with
    | none => .error (.fileNotFound filePath)
    | some data =>
      if byteSize data.content > maxFileSize then .error .fileTooLarge
      else if data.isDir then .error (.isDirectory filePath)
      else
        let content := data.content
        let truncated :=
          if content.length > 1000 then
            content.take 1000 ++ [dotCp, dotCp, dotCp]
          else content
        .ok (.fileRead filePath content.length truncated)

/-- `FunctionExecutor.createFile({path, content})` (the size guard is on
`content.length`, the character count). -/
def createFileOp (env : HostEnv) (fs : FSModel) (p : String)
    (content : List ℕ) : (Except ExecErr ExecResult) × FSModel :=
  match validatePath env p with
  | .error e => (.error e, fs)
  | .ok filePath =>
    if content.length > maxFileSize then (.error .contentTooLarge, fs)
    else (.ok (.fileCreated filePath),
          fsWrite fs filePath { isDir := false, content := content })

/-- `FunctionExecutor.deleteFile({path})`: validate, stat, refuse
directories, unlink. -/
def deleteFileOp (env : HostEnv) (fs : FSModel) (p : String) :
    (Except ExecErr ExecResult) × FSModel :=
  match validatePath env p with
  | .error e => (.error e, fs)
  | .ok filePath =>
    match fsLookup fs filePath with
    | none => (.error (.fileNotFound filePath), fs)
    | some data =>
      if data.isDir then (.error (.isDirectory filePath), fs)
      else (.ok (.fileDeleted filePath), fsErase fs filePath)

/-- `FunctionExecutor.moveFile({source, destination})`. -/
def moveFileOp (env : HostEnv) (fs : FSModel) (src dst : String) :
    (Except ExecErr ExecResult) × FSModel :=
  match validatePath env src with
  | .error e => (.error e, fs)
  | .ok sourcePath =>
    match validatePath env dst with
    | .error e => (.error e, fs)
    | .ok destPath =>
      match fsLookup fs sourcePath with
      | none => (.error (.fileNotFound sourcePath), fs)
      | some data =>
          (.ok (.fileMoved sourcePath destPath),
           fsWrite (fsErase fs sourcePath) destPath data)

/-- `FunctionExecutor.openFile({path})`: validate the path, check the
file exists, then open it with the host shell (the `start` spawn itself
is outside the model). -/
def openFileOp (env : HostEnv) (fs : FSModel) (p : String) :
    Except ExecErr ExecResult :=
  match validatePath env p with
  | .error e => .error e
  | .ok filePath =>
    match fsLookup fs filePath with
    | none => .error (.fileNotFound filePath)
    | some _ => .ok (.fileOpened filePath)

/-- `FunctionExecutor.listFiles({path, pattern?})`: validate the
directory path, then enumerate it.  The `fs.readdir` enumeration and
per-entry stats are abstracted; what matters here is that they are
reachable only after `validatePath`. -/
def listFilesOp (env : HostEnv) (p : String) : Except ExecErr ExecResult :=
  match validatePath env p with
  | .error e => .error e
  | .ok dirPath => .ok (.dirListing dirPath)

/-- `FunctionExecutor.searchFiles({query, path?})`: validate the search
root (`args.path || process.cwd()`), truncate the query to 100
characters, then enumerate (abstracted as for `listFiles`). -/
def searchFilesOp (env : HostEnv) (q : String) (p : Option String) :
    Except ExecErr ExecResult :=
  match validatePath env (p.getD env.cwd) with
  | .error e => .error e
  | .ok searchPath => .ok (.searchResults (String.mk (q.data.take 100)) searchPath)

/-- The names handled by the `switch` of
`FunctionExecutor.executeFunction` (which coincide with the
`JARVIS_FUNCTIONS` catalog of `functions/index.ts`). -/
def knownFunctions : List String :=
  ["launch_application", "open_file", "execute_command",
   "query_system_state", "query_time_date", "list_files", "create_file",
   "read_file", "delete_file", "move_file", "search_files",
   "manage_window", "set_volume", "open_url"]

/-- `FunctionExecutor.executeFunction(functionName, args)`: dispatch on
the name; an unmatched name throws `Unknown function`.  All the
operations that take a path argument go through `validatePath` exactly
as in the source; the remaining catalog entries (launch, command,
window, volume, URL and the queries) shell out to the host OS and are
abstracted as an opaque host action — what matters is that they are
reachable only through the gates of `execute`. -/
def executeFunction (env : HostEnv) (fs : FSModel) (name : String)
    (args : FnArgs) : (Except ExecErr ExecResult) × FSModel :=
  if name = "read_file" then
    match args.path with
    | none => (.error .missingArgument, fs)
    | some p => (readFileOp env fs p, fs)
  else if name = "create_file" then
    match args.path, args.content with
    | some p, some c => createFileOp env fs p c
    | _, _ => (.error .missingArgument, fs)
  else if name = "delete_file" then
    match args.path with
    | none => (.error .missingArgument, fs)
    | some p => deleteFileOp env fs p
  else if name = "move_file" then
    match args.source, args.destination with
    | some s, some d => moveFileOp env fs s d
    | _, _ => (.error .missingArgument, fs)
  else if name = "open_file" then
    match args.path with
    | none => (.error .missingArgument, fs)
    | some p => (openFileOp env fs p, fs)
  else if name = "list_files" then
    match args.path with
    | none => (.error .missingArgument, fs)
    | some p => (listFilesOp env p, fs)
  else if name = "search_files" then
    match args.query with
    | none => (.error .missingArgument, fs)
    | some q => (searchFilesOp env q args.path, fs)
  else if name ∈ knownFunctions then (.ok (.hostAction name), fs)
  else (.error (.unknownFunction name), fs)

/-- The executor configuration: the two name sets of the constructor and
the optional confirmation callback set by `setConfirmationCallback`
(deterministic abstraction of the async
`(name, args, description) → Promise<boolean>` channel). -/
structure ExecutorConfig where
  blockedFunctions : List String
  confirmationRequired : List String
  confirmationChannel : Option (String → FnArgs → Bool)

deriving instance DecidableEq for Except

/-- What one `execute` call produces: the result (or typed error), the
names for which the confirmation channel was actually invoked, and the
resulting file system. -/
structure ExecOutcome where
  result : Except ExecErr ExecResult
  channelInvoked : List String
  fs : FSModel
deriving DecidableEq

/-- `FunctionExecutor.execute(functionName, args)`.  Order as in the
source: (1) blocked set, (2) confirmation (`requestConfirmation` invokes
the callback when one is set and denies otherwise; a `false` answer
throws `not approved`), (3) `executeFunction` — which is where unknown
names are rejected and per-function argument validation happens. -/
def execute (env : HostEnv) (cfg : ExecutorConfig) (fs : FSModel)
    (name : String) (args : FnArgs) : ExecOutcome :=
  if name ∈ cfg.blockedFunctions then
    { result := .error (.blocked name), channelInvoked := [], fs := fs }
  else if name ∈ cfg.confirmationRequired then
    match cfg.confirmationChannel with
    | none =>
        { result := .error (.notApproved name), channelInvoked := [], fs := fs }
    | some channel =>
        if channel name args then
          let r := executeFunction env fs name args
          { result := r.1, channelInvoked := [name], fs := r.2 }
        else
          { result := .error (.notApproved name), channelInvoked := [name],
            fs := fs }
  else
    let r := executeFunction env fs name args
    { result := r.1, channelInvoked := [], fs := r.2 }

/-! ### Shared concrete fixtures -/

/-- A fresh tracker with the configuration defaults ($1 daily, $30
monthly) and an empty ledger. -/
def cleanTracker : CostTracker :=
  { entries := [], dailyBudget := 1, monthlyBudget := 30 }

/-- A tracker that has spent $0.60 today against a $1.00 daily budget. -/
def tracker60 : CostTracker :=
  { entries := [{ timestamp := 0, mode := .efficient, cost := 3 / 5,
                  tokens := none, audioSeconds := none }],
    dailyBudget := 1, monthlyBudget := 30 }

/-- A tracker that has spent exactly $0.50 today against a $1.00 daily
budget — usage exactly at the 50% threshold. -/
def tracker50 : CostTracker :=
  { entries := [{ timestamp := 0, mode := .efficient, cost := 1 / 2,
                  tokens := none, audioSeconds := none }],
    dailyBudget := 1, monthlyBudget := 30 }

/-- `DEFAULT_RECONNECTION_CONFIG`. -/
def defaultReconnectionConfig : ReconnectionConfig := {}

/-! ### Evaluation helpers for the concrete fixtures -/

theorem clean_usage_eq : getDailyBudgetUsagePercent cleanTracker 0 = 0 := by
  simp [getDailyBudgetUsagePercent, todayCost, cleanTracker]

theorem tracker60_usage_eq : getDailyBudgetUsagePercent tracker60 0 = 60 := by
  simp [getDailyBudgetUsagePercent, todayCost, tracker60, List.filter]
  norm_num

theorem tracker50_usage_eq : getDailyBudgetUsagePercent tracker50 0 = 50 := by
  simp [getDailyBudgetUsagePercent, todayCost, tracker50, List.filter]
  norm_num

/-! ### Theorems -/

/-- C1 (code bug).  The spec demands three non-zero per-stage ledger
entries per efficient-mode utterance, and
`CostTracker.recordFallbackInteraction` exists precisely to book them
(second conjunct: it appends exactly three entries) — but
`JarvisEngine.processBufferedAudio` discards the cost computed by
`FallbackChain.processAudio` and never touches the tracker, so the
ledger gains zero entries per efficient utterance (first conjunct). -/
theorem efficient_utterance_adds_no_ledger_entries :
    (∀ (st : EngineState) (res : ChainResult),
      (processBufferedAudio st res).tracker = st.tracker) ∧
    (∀ (t : CostTracker) (now : Int) (a i o c : ℚ),
      ((recordFallbackInteraction t now a i o c).2).entries.length =
        t.entries.length + 3) := by
  constructor
  · intro st res
    unfold processBufferedAudio
    split
    · rfl
    · split <;> rfl
  · intro t now a i o c
    simp [recordFallbackInteraction, recordWhisperTranscription,
      recordGPTCompletion, recordElevenLabs]

/-- C2 (counterexample).  Clock pinned to hour 12, clean budget, no
forced mode, no interaction hint: the routing decision is the configured
default mode, but its reason is `time_of_day`, not `default` (the
`RoutingDecision.reason` union in `shared/types.ts` has no `default`
member at all). -/
theorem route_default_branch_reason_not_default :
    (route none cleanTracker 0 12 none defaultRoutingConfig).mode =
      AgentMode.premium ∧
    (route none cleanTracker 0 12 none defaultRoutingConfig).reason ≠
      "default" := by
  have h : route none cleanTracker 0 12 none defaultRoutingConfig =
      { mode := .premium, reason := "time_of_day",
        estimatedCost := 12 / 100, estimatedLatency := 500 } := by
    simp [route, clean_usage_eq, defaultRoutingConfig, estimateCost,
      estimateLatency]
  rw [h]
  exact ⟨rfl, by decide⟩

/-- C2 (amended).  For every routing evaluation with no forced mode, daily
budget usage below the threshold, the hour inside the peak window and an
interaction hint other than `simple`, `route()` returns the configured
default mode — with reason `time_of_day` (the code reuses that label in
its final branch; the reason union has no `default`). -/
theorem route_default_branch (tracker : CostTracker) (now hour : Int)
    (hint : Option String) (cfg : RoutingConfig)
    (hb : getDailyBudgetUsagePercent tracker now < cfg.budgetThreshold)
    (hp1 : cfg.peakHoursStart ≤ hour) (hp2 : hour < cfg.peakHoursEnd)
    (hs : hint ≠ some "simple") :
    route none tracker now hour hint cfg =
      { mode := cfg.defaultMode, reason := "time_of_day",
        estimatedCost := estimateCost cfg.defaultMode,
        estimatedLatency := estimateLatency cfg.defaultMode } := by
  unfold route
  rw [if_neg (not_le.mpr hb), if_neg (not_not_intro ⟨hp1, hp2⟩), if_neg hs]

/-- C2 (witness): the amended claim at hour 12 with a clean budget. -/
theorem route_default_branch_witness :
    getDailyBudgetUsagePercent cleanTracker 0 <
      defaultRoutingConfig.budgetThreshold ∧
    route none cleanTracker 0 12 none defaultRoutingConfig =
      { mode := .premium, reason := "time_of_day",
        estimatedCost := 12 / 100, estimatedLatency := 500 } :=
  ⟨by rw [clean_usage_eq]; norm_num [defaultRoutingConfig],
   by
    have h := route_default_branch cleanTracker 0 12 none
      defaultRoutingConfig
      (by rw [clean_usage_eq]; norm_num [defaultRoutingConfig])
      (by norm_num [defaultRoutingConfig])
      (by norm_num [defaultRoutingConfig]) (by simp)
    simpa [defaultRoutingConfig, estimateCost, estimateLatency] using h⟩

/-- C7 (confirmed).  With no forced mode, whenever the tracker's daily
usage percentage is `≥` the budget threshold, `route()` returns
efficient mode with reason `cost_limit`, whatever the hour and hint. -/
theorem route_cost_limit (tracker : CostTracker) (now hour : Int)
    (hint : Option String) (cfg : RoutingConfig)
    (hb : getDailyBudgetUsagePercent tracker now ≥ cfg.budgetThreshold) :
    route none tracker now hour hint cfg =
      { mode := .efficient, reason := "cost_limit",
        estimatedCost := 4 / 1000, estimatedLatency := 2000 } := by
  unfold route
  rw [if_pos hb]
  rfl

/-- C7 (witness): $0.60 spent today against a $1.00 daily budget (60% ≥
50%) routes to efficient/cost_limit, and so does usage exactly at the
threshold ($0.50, i.e. 50% ≥ 50% — the comparison is `≥`, not `>`). -/
theorem route_cost_limit_witness :
    getDailyBudgetUsagePercent tracker60 0 ≥
        defaultRoutingConfig.budgetThreshold ∧
    route none tracker60 0 12 none defaultRoutingConfig =
      { mode := .efficient, reason := "cost_limit",
        estimatedCost := 4 / 1000, estimatedLatency := 2000 } ∧
    getDailyBudgetUsagePercent tracker50 0 ≥
        defaultRoutingConfig.budgetThreshold ∧
    route none tracker50 0 12 none defaultRoutingConfig =
      { mode := .efficient, reason := "cost_limit",
        estimatedCost := 4 / 1000, estimatedLatency := 2000 } :=
  ⟨by rw [ge_iff_le, tracker60_usage_eq]; norm_num [defaultRoutingConfig],
   route_cost_limit tracker60 0 12 none defaultRoutingConfig
     (by rw [ge_iff_le, tracker60_usage_eq]; norm_num [defaultRoutingConfig]),
   by rw [ge_iff_le, tracker50_usage_eq]; norm_num [defaultRoutingConfig],
   route_cost_limit tracker50 0 12 none defaultRoutingConfig
     (by rw [ge_iff_le, tracker50_usage_eq]; norm_num [defaultRoutingConfig])⟩

/-- C6 (code bug).  Unsolicited disconnect after a successful connection,
first reconnection attempt succeeds: the client emits `disconnected`,
`reconnecting(attempt=1, delay=1000ms)`, re-issues the session
configuration — and then emits `reconnected` carrying `attempt = 0`, not
the number of the attempt that succeeded, because the WebSocket `open`
handler resets `reconnectAttempts` to 0 before the awaiting continuation
reads it.  No `reconnected(1)` event ever appears in the trace. -/
theorem reconnected_event_carries_zero :
    onClose defaultReconnectionConfig false true (fun _ => true) =
      [.disconnected, .reconnecting 1 1000, .sessionConfigured,
       .reconnected 0] ∧
    RCEvent.reconnected 1 ∉
      onClose defaultReconnectionConfig false true (fun _ => true) := by
  have h : onClose defaultReconnectionConfig false true (fun _ => true) =
      [.disconnected, .reconnecting 1 1000, .sessionConfigured,
       .reconnected 0] := by
    norm_num [onClose, reconnectLoop, reconnectLoopAux,
      defaultReconnectionConfig, min_def]
  refine ⟨h, ?_⟩
  rw [h]
  simp

/-- The non-system part of a conversation history. -/
def nonSystem (h : List ChatMsg) : List ChatMsg :=
  h.filter (fun m => m.role != "system")

theorem trimHistory_length_of_le (h : List ChatMsg) (hl : h.length ≤ 10) :
    trimHistory h = h := by
  unfold trimHistory
  rw [if_neg (by omega)]

theorem trimHistory_length_of_gt (h : List ChatMsg) (hl : h.length > 10) :
    (trimHistory h).length = 10 := by
  unfold trimHistory
  rw [if_pos hl]
  match h, hl with
  | m0 :: rest, hl =>
    dsimp only
    split <;> simp_all [List.length_drop] <;> omega

theorem trimHistory_head_system (h : List ChatMsg) (m0 : ChatMsg)
    (hh : h.head? = some m0) (hs : m0.role = "system") :
    (trimHistory h).head? = some m0 := by
  match h, hh with
  | m :: rest, hh =>
    have hm : m = m0 := by simpa using hh
    subst hm
    unfold trimHistory
    split
    · dsimp only
      rw [if_pos hs]
      simp
    · simp

theorem trimHistory_nonSystem_suffix (h : List ChatMsg) :
    nonSystem (trimHistory h) <:+ nonSystem h := by
  unfold trimHistory
  split
  · match h with
    | [] => simp
    | m0 :: rest =>
      dsimp only
      split
      · rename_i hsys
        have hdrop : ((m0 :: rest).drop ((m0 :: rest).length - 9)) <:+
            (m0 :: rest) := List.drop_suffix _ _
        have := hdrop.filter (fun m => m.role != "system")
        simpa [nonSystem, hsys] using this
      · exact (List.drop_suffix _ _).filter _
  · exact List.suffix_refl _

theorem nonSystem_append (h₁ h₂ : List ChatMsg) :
    nonSystem (h₁ ++ h₂) = nonSystem h₁ ++ nonSystem h₂ := by
  simp [nonSystem, List.filter_append]

theorem suffix_append_right {α : Type} (l₁ l₂ l₃ : List α)
    (h : l₁ <:+ l₂) : l₁ ++ l₃ <:+ l₂ ++ l₃ := by
  obtain ⟨t, rfl⟩ := h
  exact ⟨t, by rw [List.append_assoc]⟩

/-- One exchange step: what `generateResponseHistory` appends. -/
def exchangeMsgs (e : String × String) : List ChatMsg :=
  [{ role := "user", content := e.1 }, { role := "assistant", content := e.2 }]

theorem generateResponseHistory_length (h : List ChatMsg)
    (u a : String) (hl : h.length ≤ 10) :
    (generateResponseHistory h u a).length ≤ 10 := by
  unfold generateResponseHistory
  by_cases hc : (h ++ ([{ role := "user", content := u },
      { role := "assistant", content := a }] : List ChatMsg)).length > 10
  · rw [trimHistory_length_of_gt _ hc]
  · rw [trimHistory_length_of_le _ (by omega)]
    simp only [List.length_append, List.length_cons, List.length_nil] at hc ⊢
    omega

theorem generateResponseHistory_head (h : List ChatMsg) (m0 : ChatMsg)
    (u a : String) (hh : h.head? = some m0) (hs : m0.role = "system") :
    (generateResponseHistory h u a).head? = some m0 := by
  unfold generateResponseHistory
  apply trimHistory_head_system _ m0 _ hs
  match h, hh with
  | m :: rest, hh => simpa using hh

theorem generateResponseHistory_suffix (h : List ChatMsg) (u a : String) :
    nonSystem (generateResponseHistory h u a) <:+
      nonSystem h ++ exchangeMsgs (u, a) := by
  unfold generateResponseHistory
  have h1 := trimHistory_nonSystem_suffix
    (h ++ [{ role := "user", content := u },
           { role := "assistant", content := a }])
  rw [nonSystem_append] at h1
  have h2 : nonSystem [({ role := "user", content := u } : ChatMsg),
      { role := "assistant", content := a }] = exchangeMsgs (u, a) := by
    simp [nonSystem, exchangeMsgs]
  rw [h2] at h1
  exact h1

/-- The final history after a sequence of efficient-mode exchanges. -/
def historyAfter (sysPrompt : Option String)
    (exchanges : List (String × String)) : List ChatMsg :=
  exchanges.foldl (fun h e => generateResponseHistory h e.1 e.2)
    (initialHistory sysPrompt)

theorem historyAfter_invariant
    (exchanges : List (String × String)) (h : List ChatMsg)
    (acc : List ChatMsg)
    (hlen : h.length ≤ 10)
    (hsuf : nonSystem h <:+ acc) :
    (exchanges.foldl (fun h e => generateResponseHistory h e.1 e.2) h).length
        ≤ 10 ∧
    nonSystem (exchanges.foldl (fun h e => generateResponseHistory h e.1 e.2) h)
      <:+ acc ++ exchanges.flatMap exchangeMsgs := by
  induction exchanges generalizing h acc with
  | nil => simpa using ⟨hlen, hsuf⟩
  | cons e rest ih =>
    simp only [List.foldl_cons, List.flatMap_cons]
    have step₁ := generateResponseHistory_length h e.1 e.2 hlen
    have step₂ := generateResponseHistory_suffix h e.1 e.2
    have hsuf₂ : nonSystem (generateResponseHistory h e.1 e.2) <:+
        acc ++ exchangeMsgs e := by
      exact step₂.trans (suffix_append_right _ _ _ hsuf)
    have := ih (generateResponseHistory h e.1 e.2) (acc ++ exchangeMsgs e)
      step₁ hsuf₂
    simpa [List.append_assoc] using this

theorem foldl_head_system (exchanges : List (String × String))
    (h : List ChatMsg) (m0 : ChatMsg) (hh : h.head? = some m0)
    (hs : m0.role = "system") :
    (exchanges.foldl (fun h e => generateResponseHistory h e.1 e.2) h).head?
      = some m0 := by
  induction exchanges generalizing h with
  | nil => simpa using hh
  | cons e rest ih =>
    exact ih _ (generateResponseHistory_head h m0 e.1 e.2 hh hs)

theorem historyAfter_head (p : String)
    (exchanges : List (String × String)) :
    (historyAfter (some p) exchanges).head? =
      some { role := "system", content := p } := by
  unfold historyAfter
  exact foldl_head_system exchanges _ _ (by simp [initialHistory]) rfl

/-- A sequence of seven efficient-mode exchanges, enough to make the
history trim several times. -/
def sampleExchanges : List (String × String) :=
  [("u1", "a1"), ("u2", "a2"), ("u3", "a3"), ("u4", "a4"), ("u5", "a5"),
   ("u6", "a6"), ("u7", "a7")]

/-- C8 (confirmed).  After any sequence of efficient-mode exchanges
(each appending a user and an assistant message and trimming), the
history length stays at most 11, the system message — when configured —
is never dropped and stays at the head, and the surviving non-system
messages are a suffix of the full appended message stream, i.e. trimming
only ever drops the oldest non-system messages.  (The implementation in
fact keeps at most 10 messages: the system message plus the last 9.) -/
theorem history_length_bounded (sysPrompt : Option String)
    (exchanges : List (String × String)) :
    (historyAfter sysPrompt exchanges).length ≤ 11 ∧
    (∀ p, sysPrompt = some p →
      (historyAfter sysPrompt exchanges).head? =
        some { role := "system", content := p }) ∧
    nonSystem (historyAfter sysPrompt exchanges) <:+
      exchanges.flatMap exchangeMsgs := by
  have hinitLen : (initialHistory sysPrompt).length ≤ 10 := by
    cases sysPrompt <;> simp [initialHistory]
  have hinitSuf : nonSystem (initialHistory sysPrompt) <:+ [] := by
    cases sysPrompt <;> simp [initialHistory, nonSystem]
  have main := historyAfter_invariant exchanges _ [] hinitLen hinitSuf
  refine ⟨?_, ?_, ?_⟩
  · have := main.1
    unfold historyAfter
    omega
  · intro p hp
    subst hp
    exact historyAfter_head p exchanges
  · have := main.2
    unfold historyAfter
    simpa using this

/-- C8 (witness): the bound and the head preservation at a concrete
system prompt and seven concrete exchanges. -/
theorem history_length_bounded_witness :
    (historyAfter (some "sys") sampleExchanges).length ≤ 11 ∧
    (historyAfter (some "sys") sampleExchanges).head? =
      some { role := "system", content := "sys" } :=
  ⟨(history_length_bounded (some "sys") sampleExchanges).1,
   (history_length_bounded (some "sys") sampleExchanges).2.1 "sys" rfl⟩

/-- C10 (confirmed).  The `response.done` handler books the same constant
cost for every premium interaction: it always calls
`recordRealtimeInteraction(5, 1000)`, which appends a single entry of
`(1000/2)/10^6 × $100 + (1000/2)/10^6 × $200 = $0.15`, independent of
the actual audio length and token usage carried by the response payload
it ignores — a fixed estimate, not measured usage. -/
theorem premium_cost_constant (st : EngineState) (now : Int)
    (resp : RealtimeResponsePayload) :
    (onResponseDone st now resp).tracker.entries =
      st.tracker.entries ++
        [{ timestamp := now, mode := .premium, cost := 3 / 20,
           tokens := some 1000, audioSeconds := some 5 }] := by
  unfold onResponseDone recordRealtimeInteraction
  norm_num [PRICING_realtimeAudioInput, PRICING_realtimeAudioOutput]

/-! ### Executor fixtures and gate lemmas -/

/-- A concrete host environment for witnesses. -/
def env0 : HostEnv := { homedir := "/home/user", tmpdir := "/tmp", cwd := "/work" }

/-- `ConfigManager.loadConfig().security.blocked` defaults. -/
def defaultBlocked : List String :=
  ["access_credentials", "modify_admin_protected", "run_arbitrary_powershell"]

/-- `ConfigManager.loadConfig().security.requireConfirmation` defaults. -/
def defaultConfirmationRequired : List String :=
  ["delete_file", "modify_system_settings", "uninstall_application",
   "modify_registry"]

/-- The executor as the engine constructs it
(`new FunctionExecutor(config.security.blocked,
config.security.requireConfirmation)`), with a given channel. -/
def defaultExecCfg (ch : Option (String → FnArgs → Bool)) : ExecutorConfig :=
  { blockedFunctions := defaultBlocked,
    confirmationRequired := defaultConfirmationRequired,
    confirmationChannel := ch }

/-- Code points of `"hello"`. -/
def helloContent : List ℕ := [104, 101, 108, 108, 111]

/-- Dispatch on a name outside the catalog throws `Unknown function`. -/
theorem executeFunction_unknown (env : HostEnv) (fs : FSModel)
    (name : String) (args : FnArgs) (h : name ∉ knownFunctions) :
    executeFunction env fs name args = (.error (.unknownFunction name), fs) := by
  have h1 : ¬ name = "read_file" := by rintro rfl; exact h (by decide)
  have h2 : ¬ name = "create_file" := by rintro rfl; exact h (by decide)
  have h3 : ¬ name = "delete_file" := by rintro rfl; exact h (by decide)
  have h4 : ¬ name = "move_file" := by rintro rfl; exact h (by decide)
  have h5 : ¬ name = "open_file" := by rintro rfl; exact h (by decide)
  have h6 : ¬ name = "list_files" := by rintro rfl; exact h (by decide)
  have h7 : ¬ name = "search_files" := by rintro rfl; exact h (by decide)
  unfold executeFunction
  rw [if_neg h1, if_neg h2, if_neg h3, if_neg h4, if_neg h5, if_neg h6,
    if_neg h7, if_neg h]

/-- An executor that requires confirmation for a name that is not in the
function catalog, with a channel that denies everything. -/
def confirmGatedUnknownCfg : ExecutorConfig :=
  { blockedFunctions := [], confirmationRequired := ["mystery_function"],
    confirmationChannel := some (fun _ _ => false) }

/-- Like `confirmGatedUnknownCfg` but with an approving channel. -/
def confirmGatedUnknownCfgApprove : ExecutorConfig :=
  { blockedFunctions := [], confirmationRequired := ["mystery_function"],
    confirmationChannel := some (fun _ _ => true) }

/-- C3 (counterexample).  `mystery_function` is not in the catalog but is
in the confirmation-required set: `execute` invokes the confirmation
channel (which denies) and fails with `NotApproved` — not with
`UnknownFunction`, and the channel is invoked, contradicting the claimed
policy-before-confirmation gate order. -/
theorem unknown_confirmed_name_invokes_channel :
    (execute env0 confirmGatedUnknownCfg [] "mystery_function" {}).result =
      .error (.notApproved "mystery_function") ∧
    "mystery_function" ∈
      (execute env0 confirmGatedUnknownCfg [] "mystery_function"
        {}).channelInvoked ∧
    (execute env0 confirmGatedUnknownCfg [] "mystery_function" {}).result ≠
      .error (.unknownFunction "mystery_function") := by
  refine ⟨?_, ?_, ?_⟩ <;> simp [execute, confirmGatedUnknownCfg]

/-- C3 (amended).  `execute` applies its gates in the order blocked
policy, then confirmation, then dispatch (where unknown names are
rejected and per-function validation happens).  A call whose name is
outside the catalog fails with `UnknownFunction` without any channel
invocation only when the name is not confirmation-gated; if the unknown
name is in the confirmation-required set, the confirmation channel is
invoked first — a denial yields `NotApproved`, and only an approval
reaches the `UnknownFunction` rejection. -/
theorem execute_gate_order :
    (∀ (env : HostEnv) (cfg : ExecutorConfig) (fs : FSModel)
       (name : String) (args : FnArgs),
       name ∉ cfg.blockedFunctions → name ∉ cfg.confirmationRequired →
       name ∉ knownFunctions →
       execute env cfg fs name args =
         { result := .error (.unknownFunction name), channelInvoked := [],
           fs := fs }) ∧
    (∀ (env : HostEnv) (cfg : ExecutorConfig) (fs : FSModel)
       (name : String) (args : FnArgs) (ch : String → FnArgs → Bool),
       name ∉ cfg.blockedFunctions → name ∈ cfg.confirmationRequired →
       cfg.confirmationChannel = some ch → ch name args = false →
       execute env cfg fs name args =
         { result := .error (.notApproved name), channelInvoked := [name],
           fs := fs }) ∧
    (∀ (env : HostEnv) (cfg : ExecutorConfig) (fs : FSModel)
       (name : String) (args : FnArgs) (ch : String → FnArgs → Bool),
       name ∉ cfg.blockedFunctions → name ∈ cfg.confirmationRequired →
       cfg.confirmationChannel = some ch → ch name args = true →
       name ∉ knownFunctions →
       execute env cfg fs name args =
         { result := .error (.unknownFunction name),
           channelInvoked := [name], fs := fs }) := by
  refine ⟨?_, ?_, ?_⟩
  · intro env cfg fs name args hb hc hk
    unfold execute
    rw [if_neg hb, if_neg hc, executeFunction_unknown env fs name args hk]
  · intro env cfg fs name args ch hb hc hch hfalse
    unfold execute
    rw [if_neg hb, if_pos hc, hch]
    dsimp only
    rw [if_neg (by simp [hfalse])]
  · intro env cfg fs name args ch hb hc hch htrue hk
    unfold execute
    rw [if_neg hb, if_pos hc, hch]
    dsimp only
    rw [if_pos (by simp [htrue]), executeFunction_unknown env fs name args hk]

/-- C3 (witness): the three gate-order facts at concrete inputs — an
unknown, ungated name fails `UnknownFunction` with no channel call; the
same unknown name under a denying confirmation gate fails `NotApproved`
with the channel invoked; under an approving gate it reaches the
`UnknownFunction` rejection after the channel call. -/
theorem execute_gate_order_witness :
    execute env0 confirmGatedUnknownCfg [] "other_function" {} =
      { result := .error (.unknownFunction "other_function"),
        channelInvoked := [], fs := [] } ∧
    execute env0 confirmGatedUnknownCfg [] "mystery_function" {} =
      { result := .error (.notApproved "mystery_function"),
        channelInvoked := ["mystery_function"], fs := [] } ∧
    execute env0 confirmGatedUnknownCfgApprove [] "mystery_function" {} =
      { result := .error (.unknownFunction "mystery_function"),
        channelInvoked := ["mystery_function"], fs := [] } :=
  ⟨execute_gate_order.1 env0 confirmGatedUnknownCfg [] "other_function" {}
     (by decide) (by decide) (by decide),
   execute_gate_order.2.1 env0 confirmGatedUnknownCfg [] "mystery_function"
     {} (fun _ _ => false) (by decide) (by decide) rfl rfl,
   execute_gate_order.2.2 env0 confirmGatedUnknownCfgApprove []
     "mystery_function" {} (fun _ _ => true) (by decide) (by decide) rfl rfl
     (by decide)⟩

/-- Outside-of-bases inputs make `validatePath` fail with `PathDenied`
(the prefix check runs before both the traversal check and any file
access). -/
theorem validatePath_denied (env : HostEnv) (p : String)
    (h : ∀ b ∈ allowedBasePaths env,
      strStartsWith (resolvePath env.cwd p) b = false) :
    validatePath env p = .error .pathDenied := by
  unfold validatePath
  have hany : (allowedBasePaths env).any
      (fun basePath => strStartsWith (resolvePath env.cwd p) basePath)
        = false :=
    List.any_eq_false.mpr (fun b hb => by simp [h b hb])
  simp only [hany]
  rfl

/-- C4 (confirmed).  First conjunct: for every file-operation call whose
path argument resolves to an absolute path outside all three allowed
base directories, `execute` fails with `PathDenied` — uniformly in the
file system, so before any file access — covering `read_file`,
`open_file`, `list_files`, `search_files`, `create_file`, `move_file`
(either argument) and `delete_file` (whose confirmation gate runs
first; an approving channel still ends in `PathDenied`).  Second
conjunct: `read_file` on an existing regular file inside an allowed
directory (within the size bounds) returns its content. -/
theorem file_ops_path_sandbox :
    (∀ (ch : Option (String → FnArgs → Bool)) (env : HostEnv)
       (fs : FSModel) (p : String),
       (∀ b ∈ allowedBasePaths env,
         strStartsWith (resolvePath env.cwd p) b = false) →
       (execute env (defaultExecCfg ch) fs "read_file" { path := some p } =
          { result := .error .pathDenied, channelInvoked := [], fs := fs }) ∧
       (execute env (defaultExecCfg ch) fs "open_file" { path := some p } =
          { result := .error .pathDenied, channelInvoked := [], fs := fs }) ∧
       (execute env (defaultExecCfg ch) fs "list_files" { path := some p } =
          { result := .error .pathDenied, channelInvoked := [], fs := fs }) ∧
       (∀ q, execute env (defaultExecCfg ch) fs "search_files"
            { query := some q, path := some p } =
          { result := .error .pathDenied, channelInvoked := [], fs := fs }) ∧
       (∀ c, execute env (defaultExecCfg ch) fs "create_file"
            { path := some p, content := some c } =
          { result := .error .pathDenied, channelInvoked := [], fs := fs }) ∧
       (∀ d, execute env (defaultExecCfg ch) fs "move_file"
            { source := some p, destination := some d } =
          { result := .error .pathDenied, channelInvoked := [], fs := fs }) ∧
       (∀ (src rp : String), validatePath env src = .ok rp →
          execute env (defaultExecCfg ch) fs "move_file"
              { source := some src, destination := some p } =
            { result := .error .pathDenied, channelInvoked := [],
              fs := fs }) ∧
       (∀ (appr : String → FnArgs → Bool),
          appr "delete_file" { path := some p } = true →
          execute env (defaultExecCfg (some appr)) fs "delete_file"
              { path := some p } =
            { result := .error .pathDenied,
              channelInvoked := ["delete_file"], fs := fs })) ∧
    (∀ (ch : Option (String → FnArgs → Bool)) (env : HostEnv)
       (fs : FSModel) (p rp : String) (data : FileData),
       validatePath env p = .ok rp →
       fsLookup fs rp = some data →
       data.isDir = false →
       byteSize data.content ≤ maxFileSize →
       data.content.length ≤ 1000 →
       execute env (defaultExecCfg ch) fs "read_file" { path := some p } =
         { result := .ok (.fileRead rp data.content.length data.content),
           channelInvoked := [], fs := fs }) := by
  constructor
  · intro ch env fs p h
    have hval : validatePath env p = .error .pathDenied :=
      validatePath_denied env p h
    have hnb : ∀ (c : Option (String → FnArgs → Bool)) (n : String),
        n ∉ defaultBlocked → n ∉ (defaultExecCfg c).blockedFunctions :=
      fun _ _ hn => hn
    have hnc : ∀ (c : Option (String → FnArgs → Bool)) (n : String),
        n ∉ defaultConfirmationRequired →
        n ∉ (defaultExecCfg c).confirmationRequired :=
      fun _ _ hn => hn
    refine ⟨?_, ?_, ?_, ?_, ?_, ?_, ?_, ?_⟩
    · unfold execute
      rw [if_neg (hnb ch _ (by decide)), if_neg (hnc ch _ (by decide))]
      simp [executeFunction, readFileOp, hval]
    · unfold execute
      rw [if_neg (hnb ch _ (by decide)), if_neg (hnc ch _ (by decide))]
      simp [executeFunction, openFileOp, hval]
    · unfold execute
      rw [if_neg (hnb ch _ (by decide)), if_neg (hnc ch _ (by decide))]
      simp [executeFunction, listFilesOp, hval]
    · intro q
      unfold execute
      rw [if_neg (hnb ch _ (by decide)), if_neg (hnc ch _ (by decide))]
      simp [executeFunction, searchFilesOp, hval]
    · intro c
      unfold execute
      rw [if_neg (hnb ch _ (by decide)), if_neg (hnc ch _ (by decide))]
      simp [executeFunction, createFileOp, hval]
    · intro d
      unfold execute
      rw [if_neg (hnb ch _ (by decide)), if_neg (hnc ch _ (by decide))]
      simp [executeFunction, moveFileOp, hval]
    · intro src rp hsrc
      unfold execute
      rw [if_neg (hnb ch _ (by decide)), if_neg (hnc ch _ (by decide))]
      simp [executeFunction, moveFileOp, hsrc, hval]
    · intro appr happr
      unfold execute
      rw [if_neg (hnb (some appr) _ (by decide)),
        if_pos (show "delete_file" ∈
            (defaultExecCfg (some appr)).confirmationRequired from
          (by decide : "delete_file" ∈ defaultConfirmationRequired)),
        show (defaultExecCfg (some appr)).confirmationChannel = some appr
          from rfl]
      dsimp only
      rw [if_pos happr]
      simp [executeFunction, deleteFileOp, hval]
  · intro ch env fs p rp data hval hlk hdir hsize hlen
    have hb : "read_file" ∉ (defaultExecCfg ch).blockedFunctions := by
      simp [defaultExecCfg, defaultBlocked]
    have hc : "read_file" ∉ (defaultExecCfg ch).confirmationRequired := by
      simp [defaultExecCfg, defaultConfirmationRequired]
    unfold execute
    rw [if_neg hb, if_neg hc]
    unfold executeFunction
    rw [if_pos rfl]
    dsimp only
    unfold readFileOp
    rw [hval]
    dsimp only
    rw [hlk]
    dsimp only
    rw [if_neg (by omega), if_neg (by simp [hdir]), if_neg (by omega)]

/-- The file system for the C4/C5 witnesses: one regular file
`/tmp/x.txt` containing `"hello"`. -/
def fsHello : FSModel :=
  [("/tmp/x.txt", { isDir := false, content := helloContent })]

/-- C4 (witness): with bases home `/home/user`, temp `/tmp` and cwd
`/work`, the calls `read_file`, `open_file`, `list_files`,
`search_files`, `create_file` and `move_file` on `/etc/passwd` all fail
with `PathDenied`, and so does `delete_file` even under an approving
confirmation channel; `read_file({path: "/tmp/x.txt"})` on the file
containing `"hello"` returns the full 5-character content, as does
`read_file({path: "/etc/../tmp/x.txt"})`, which Node resolves into the
allowed `/tmp/x.txt`. -/
theorem file_ops_path_sandbox_witness :
    execute env0 (defaultExecCfg none) fsHello "read_file"
        { path := some "/etc/passwd" } =
      { result := .error .pathDenied, channelInvoked := [], fs := fsHello } ∧
    execute env0 (defaultExecCfg none) fsHello "open_file"
        { path := some "/etc/passwd" } =
      { result := .error .pathDenied, channelInvoked := [], fs := fsHello } ∧
    execute env0 (defaultExecCfg none) fsHello "list_files"
        { path := some "/etc/passwd" } =
      { result := .error .pathDenied, channelInvoked := [], fs := fsHello } ∧
    execute env0 (defaultExecCfg none) fsHello "search_files"
        { query := some "x", path := some "/etc/passwd" } =
      { result := .error .pathDenied, channelInvoked := [], fs := fsHello } ∧
    execute env0 (defaultExecCfg none) fsHello "create_file"
        { path := some "/etc/passwd", content := some helloContent } =
      { result := .error .pathDenied, channelInvoked := [], fs := fsHello } ∧
    execute env0 (defaultExecCfg none) fsHello "move_file"
        { source := some "/etc/passwd", destination := some "/tmp/x.txt" } =
      { result := .error .pathDenied, channelInvoked := [], fs := fsHello } ∧
    execute env0 (defaultExecCfg (some (fun _ _ => true))) fsHello
        "delete_file" { path := some "/etc/passwd" } =
      { result := .error .pathDenied, channelInvoked := ["delete_file"],
        fs := fsHello } ∧
    execute env0 (defaultExecCfg none) fsHello "read_file"
        { path := some "/tmp/x.txt" } =
      { result := .ok (.fileRead "/tmp/x.txt" 5 helloContent),
        channelInvoked := [], fs := fsHello } ∧
    execute env0 (defaultExecCfg none) fsHello "read_file"
        { path := some "/etc/../tmp/x.txt" } =
      { result := .ok (.fileRead "/tmp/x.txt" 5 helloContent),
        channelInvoked := [], fs := fsHello } := by
  have hden := file_ops_path_sandbox.1 none env0 fsHello "/etc/passwd"
    (by decide)
  have hok1 := file_ops_path_sandbox.2 none env0 fsHello "/tmp/x.txt"
    "/tmp/x.txt" { isDir := false, content := helloContent }
    (by decide) (by decide) rfl (by decide) (by decide)
  have hok2 := file_ops_path_sandbox.2 none env0 fsHello "/etc/../tmp/x.txt"
    "/tmp/x.txt" { isDir := false, content := helloContent }
    (by decide) (by decide) rfl (by decide) (by decide)
  exact ⟨hden.1, hden.2.1, hden.2.2.1, hden.2.2.2.1 "x",
    hden.2.2.2.2.1 helloContent, hden.2.2.2.2.2.1 "/tmp/x.txt",
    hden.2.2.2.2.2.2.2 (fun _ _ => true) rfl,
    by simpa [helloContent] using hok1, by simpa [helloContent] using hok2⟩

/-- C5 (confirmed).  For any call to a confirmation-required,
non-blocked function with no registered channel — or a channel that
answers `false` — `execute` fails with `NotApproved` and the file system
is returned untouched. -/
theorem confirmation_denied_no_side_effect
    (env : HostEnv) (cfg : ExecutorConfig) (fs : FSModel) (name : String)
    (args : FnArgs)
    (hc : name ∈ cfg.confirmationRequired)
    (hb : name ∉ cfg.blockedFunctions)
    (hdeny : cfg.confirmationChannel = none ∨
      ∃ ch, cfg.confirmationChannel = some ch ∧ ch name args = false) :
    (execute env cfg fs name args).result = .error (.notApproved name) ∧
    (execute env cfg fs name args).fs = fs := by
  unfold execute
  rw [if_neg hb, if_pos hc]
  rcases hdeny with hnone | ⟨ch, hch, hfalse⟩
  · rw [hnone]
    exact ⟨rfl, rfl⟩
  · rw [hch]
    dsimp only
    rw [if_neg (by simp [hfalse])]
    exact ⟨rfl, rfl⟩

/-- C5 (witness): `delete_file({path: "/tmp/x.txt"})` with the file
present, under the default configuration (where `delete_file` requires
confirmation) and a channel that returns `false`, fails with
`NotApproved`; the resulting file system is unchanged and the file still
exists.  The same holds with no channel registered at all. -/
theorem confirmation_denied_no_side_effect_witness :
    (execute env0 (defaultExecCfg (some (fun _ _ => false))) fsHello
        "delete_file" { path := some "/tmp/x.txt" }).result =
      .error (.notApproved "delete_file") ∧
    (execute env0 (defaultExecCfg (some (fun _ _ => false))) fsHello
        "delete_file" { path := some "/tmp/x.txt" }).fs = fsHello ∧
    fsLookup ((execute env0 (defaultExecCfg (some (fun _ _ => false)))
        fsHello "delete_file" { path := some "/tmp/x.txt" }).fs)
        "/tmp/x.txt" =
      some { isDir := false, content := helloContent } ∧
    (execute env0 (defaultExecCfg none) fsHello "delete_file"
        { path := some "/tmp/x.txt" }).result =
      .error (.notApproved "delete_file") := by
  have h1 := confirmation_denied_no_side_effect env0
    (defaultExecCfg (some (fun _ _ => false))) fsHello "delete_file"
    { path := some "/tmp/x.txt" } (by decide) (by decide)
    (Or.inr ⟨fun _ _ => false, rfl, rfl⟩)
  have h2 := confirmation_denied_no_side_effect env0 (defaultExecCfg none)
    fsHello "delete_file" { path := some "/tmp/x.txt" } (by decide)
    (by decide) (Or.inl rfl)
  refine ⟨h1.1, h1.2, ?_, h2.1⟩
  rw [h1.2]
  rfl

/-- The file `/tmp/e.txt` containing the single character `é` (U+00E9):
one character of decoded text, two UTF-8 bytes on disk. -/
def eAcuteFile : FileData := { isDir := false, content := [233] }

def fsEAcute : FSModel := [("/tmp/e.txt", eAcuteFile)]

/-- C9 (counterexample).  `read_file` on a 2-byte file holding the single
character `é` reports `size = 1` — the decoded character count
(`content.length`), not the file's true size in bytes (2). -/
theorem read_file_size_not_bytes :
    (execute env0 (defaultExecCfg none) fsEAcute "read_file"
        { path := some "/tmp/e.txt" }).result =
      .ok (.fileRead "/tmp/e.txt" 1 [233]) ∧
    byteSize eAcuteFile.content = 2 ∧ (1 : ℕ) ≠ 2 := by
  refine ⟨by decide, by decide, by decide⟩

theorem byteSize_replicate (n c : ℕ) :
    byteSize (List.replicate n c) = n * utf8Width c := by
  simp [byteSize, List.map_replicate, List.sum_replicate, smul_eq_mul]

/-- C9 (amended).  `read_file` rejects any file larger than 10 MiB (the
size check is in bytes); for content of at most 1000 characters it
returns the full content, for longer content the first 1000 characters
followed by the `'...'` ellipsis marker — and in both cases the reported
`size` field equals the decoded content's character count, which equals
the true byte size only for single-byte (ASCII) content (see the
counterexample for a multi-byte file). -/
theorem read_file_reports_char_count (env : HostEnv) (fs : FSModel)
    (p rp : String) (data : FileData)
    (hval : validatePath env p = .ok rp)
    (hlk : fsLookup fs rp = some data)
    (hdir : data.isDir = false) :
    (byteSize data.content > maxFileSize →
       readFileOp env fs p = .error .fileTooLarge) ∧
    (byteSize data.content ≤ maxFileSize → data.content.length ≤ 1000 →
       readFileOp env fs p =
         .ok (.fileRead rp data.content.length data.content)) ∧
    (byteSize data.content ≤ maxFileSize → data.content.length > 1000 →
       readFileOp env fs p =
         .ok (.fileRead rp data.content.length
           (data.content.take 1000 ++ [dotCp, dotCp, dotCp]))) := by
  refine ⟨?_, ?_, ?_⟩
  · intro hbig
    unfold readFileOp
    rw [hval]
    dsimp only
    rw [hlk]
    dsimp only
    rw [if_pos hbig]
  · intro hsz hlen
    unfold readFileOp
    rw [hval]
    dsimp only
    rw [hlk]
    dsimp only
    rw [if_neg (by omega), if_neg (by simp [hdir]), if_neg (by omega)]
  · intro hsz hlen
    unfold readFileOp
    rw [hval]
    dsimp only
    rw [hlk]
    dsimp only
    rw [if_neg (by omega), if_neg (by simp [hdir]), if_pos (by omega)]

/-- A 1001-character ASCII file (each character one byte). -/
def longFile : FileData :=
  { isDir := false, content := List.replicate 1001 97 }

/-- A file one byte over the 10 MiB limit. -/
def hugeFile : FileData :=
  { isDir := false, content := List.replicate (10 * 1024 * 1024 + 1) 97 }

def fsSizes : FSModel :=
  [("/tmp/x.txt", { isDir := false, content := helloContent }),
   ("/tmp/long.txt", longFile), ("/tmp/huge.txt", hugeFile)]

/-- C9 (witness): a 5-character file is returned in full with
`size = 5`; a 1001-character file is truncated to the first 1000
characters plus the ellipsis with `size = 1001`; a file one byte over
10 MiB is rejected as too large. -/
theorem read_file_reports_char_count_witness :
    readFileOp env0 fsSizes "/tmp/x.txt" =
      .ok (.fileRead "/tmp/x.txt" 5 helloContent) ∧
    readFileOp env0 fsSizes "/tmp/long.txt" =
      .ok (.fileRead "/tmp/long.txt" 1001
        ((List.replicate 1001 97).take 1000 ++ [dotCp, dotCp, dotCp])) ∧
    readFileOp env0 fsSizes "/tmp/huge.txt" = .error .fileTooLarge := by
  have hlongBytes : byteSize longFile.content = 1001 := by
    rw [show longFile.content = List.replicate 1001 97 from rfl,
      byteSize_replicate]
    norm_num [utf8Width]
  have hlongLen : longFile.content.length = 1001 := by
    rw [show longFile.content = List.replicate 1001 97 from rfl]
    exact List.length_replicate ..
  have hhugeBytes : byteSize hugeFile.content = 10 * 1024 * 1024 + 1 := by
    rw [show hugeFile.content = List.replicate (10 * 1024 * 1024 + 1) 97
        from rfl, byteSize_replicate]
    norm_num [utf8Width]
  have h1 := (read_file_reports_char_count env0 fsSizes "/tmp/x.txt"
    "/tmp/x.txt" { isDir := false, content := helloContent }
    (by decide) rfl rfl).2.1 (by decide) (by decide)
  have h2 := (read_file_reports_char_count env0 fsSizes "/tmp/long.txt"
    "/tmp/long.txt" longFile (by decide) rfl rfl).2.2
    (by rw [hlongBytes]; norm_num [maxFileSize]) (by rw [hlongLen]; norm_num)
  have h3 := (read_file_reports_char_count env0 fsSizes "/tmp/huge.txt"
    "/tmp/huge.txt" hugeFile (by decide) rfl rfl).1
    (by rw [hhugeBytes]; norm_num [maxFileSize])
  refine ⟨by simpa [helloContent] using h1, ?_, h3⟩
  rw [h2, hlongLen]
  rfl

end WhisperApp
